import Mathlib

/-!
Verification model of the Multi-Agent-A2A repository.

The development shallowly embeds the protocol-level logic of the repository:

* `src/client/a2a_tools_.py` — message construction and result extraction of
  `A2ARemoteAgentTool.run`, together with its error branches;
* `src/crewai_question_agent/agent_executor.py` and
  `src/langgraph_latex_agent/agent_executor.py` — the two `AgentExecutor`
  implementations, modelled as functions from a request context to the list of
  events they enqueue plus their outcome;
* `src/client/client_agent.py` — the two-stage orchestration `run_workflow`;
* `src/langgraph_latex_agent/agent.py` — the pure parts of the LangGraph
  pipeline (`parse_questions`, the markdown-fence cleanup of
  `convert_to_latex`, and `format_output`); the Gemini call itself is an
  external collaborator and is a function parameter `gen`.

Python string primitives (`strip`, `split`, `in`) are re-implemented on
`List Char` with structural recursion so that concrete instances evaluate
inside the kernel.  Python `str.strip` with no argument strips whitespace;
the repository only ever strips ASCII text, so the ASCII whitespace set is
used.
-/

set_option maxRecDepth 100000

/-- ASCII whitespace as recognised by Python `str.strip` / `str.isspace`. -/
def isPySpace (c : Char) : Bool :=
  c == ' ' || c == '\t' || c == '\n' || c == '\r' || c == '\x0b' || c == '\x0c'

/-- Strip `isPySpace` characters from both ends of a character list. -/
def pyStripList (l : List Char) : List Char :=
  ((l.dropWhile isPySpace).reverse.dropWhile isPySpace).reverse

/-- Python `s.strip()` restricted to ASCII whitespace. -/
def pyStrip (s : String) : String :=
  String.mk (pyStripList s.data)

/-- `leadMatch sub l` is true when `sub` matches the front of `l`. -/
def leadMatch : List Char → List Char → Bool
  | [], _ => true
  | _ :: _, [] => false
  | a :: as, b :: bs => a == b && leadMatch as bs

/-- `listHasSub sub l` is true when `sub` occurs contiguously inside `l`. -/
def listHasSub (sub : List Char) : List Char → Bool
  | [] => leadMatch sub []
  | c :: rest => leadMatch sub (c :: rest) || listHasSub sub rest

/-- Python `sub in s`. -/
def pyContains (s sub : String) : Bool :=
  listHasSub sub.data s.data

/-- Fuel-driven worker for `pySplit`; the fuel starts at the length of the
list, which bounds the number of steps, so the recursion is structural and
concrete instances reduce in the kernel. -/
def splitGo (sep : List Char) : Nat → List Char → List Char → List (List Char)
  | _, [], acc => [acc.reverse]
  | 0, l, acc => [acc.reverse ++ l]
  | fuel + 1, c :: rest, acc =>
    if leadMatch sep (c :: rest) then
      acc.reverse :: splitGo sep fuel (List.drop (sep.length - 1) rest) []
    else
      splitGo sep fuel rest (c :: acc)

/-- Python `s.split(sep)` for a non-empty separator: non-overlapping,
left-to-right, keeping empty segments. -/
def pySplit (s sep : String) : List String :=
  (splitGo sep.data s.data.length s.data []).map String.mk

/-- String form of `leadMatch`: `s` begins with `pre`. -/
def strStartsWith (pre s : String) : Bool :=
  leadMatch pre.data s.data

/-- `s` ends with `suf`. -/
def strEndsWith (suf s : String) : Bool :=
  leadMatch suf.data.reverse s.data.reverse

/-! ## Client message construction (src/client/a2a_tools_.py, run, step 3) -/

/-- The message payload built by `A2ARemoteAgentTool.run`: a `role`, a list of
`(kind, text)` parts, a `message_id`, and the two optional multi-turn fields.
`taskId`/`contextId` are `none` exactly when the corresponding key is absent
from the Python dict. -/
structure MessagePayload where
  role : String
  parts : List (String × String)
  messageId : String
  taskId : Option String
  contextId : Option String
deriving DecidableEq

/-- Python truthiness of an `Optional[str]`: `None` and `""` are falsy. -/
def pyTruthy : Option String → Bool
  | none => false
  | some s => !(s == "")

/-- Payload construction from `run` (lines 227-249): role `user`, one text
part carrying `input_text`, the generated `message_id`, and `task_id` /
`context_id` added only when truthy (`if task_id:` / `if context_id:`).
The `message_id` is generated by `uuid4().hex` in the source and is passed
here as a parameter. -/
def buildMessagePayload (input_text message_id : String)
    (task_id context_id : Option String) : MessagePayload :=
  { role := "user",
    parts := [("text", input_text)],
    messageId := message_id,
    taskId := if pyTruthy task_id then task_id else none,
    contextId := if pyTruthy context_id then context_id else none }

/-! ## Client result extraction (src/client/a2a_tools_.py, run, step 5) -/

/-- One response part; `text` is `some t` when the part root carries a `text`
attribute (the `hasattr(part.root, 'text')` check), `none` otherwise. -/
structure RespPart where
  text : Option String
deriving DecidableEq

/-- An artifact of the task result. -/
structure RespArtifact where
  parts : List RespPart
deriving DecidableEq

/-- The optional status message of the task result. -/
structure RespMessage where
  parts : List RespPart
deriving DecidableEq

/-- Projection of `response.root.result` as navigated by `run`:
`artifacts := none` models a missing or `None` attribute, and likewise for
`message`. -/
structure TaskResult where
  id : String
  artifacts : Option (List RespArtifact)
  message : Option RespMessage
deriving DecidableEq

/-- The extraction of lines 294-323: start from the empty string, take the
first part text of the first artifact when the whole chain of presence checks
succeeds, and, whenever the accumulated text is still falsy (empty), fall
back to the first part text of the task message. -/
def extractResultText (tr : TaskResult) : String :=
  let fromArtifacts : String :=
    match tr.artifacts with
    | some (artifact :: _) =>
      match artifact.parts with
      | part :: _ =>
        match part.text with
        | some t => t
        | none => ""
      | [] => ""
    | _ => ""
  if fromArtifacts = "" then
    match tr.message with
    | some m =>
      match m.parts with
      | part :: _ =>
        match part.text with
        | some t => t
        | none => fromArtifacts
      | [] => fromArtifacts
    | none => fromArtifacts
  else fromArtifacts

/-- The artifact navigation on its own: the text attribute of the first part
of the first artifact, when every step of the chain is present. -/
def artifactNavText (tr : TaskResult) : Option String :=
  match tr.artifacts with
  | some (artifact :: _) =>
    match artifact.parts with
    | part :: _ => part.text
    | [] => none
  | _ => none

/-- The message navigation on its own: the text attribute of the first part
of the task message, when present. -/
def messageNavText (tr : TaskResult) : Option String :=
  match tr.message with
  | some m =>
    match m.parts with
    | part :: _ => part.text
    | [] => none
  | none => none

/-- Message of the `ValueError` raised when no text was extracted. -/
def noTextMsg : String := "No text content in response artifacts or message"

/-- The three failure branches of `run` (lines 332-345).  The source raises a
plain `Exception` in each branch; the constructors record which branch fired
and the message built there.  `timeoutError` realises the spec taxonomy
`TimeoutError`, `communicationError` realises `CommunicationError`, and
`a2aError` carries the wrapped generic failures — in particular the
`EmptyResultError` case, whose wrapped message is
`"A2A communication error: " ++ noTextMsg`. -/
inductive RunError where
  | timeoutError (msg : String)
  | communicationError (msg : String)
  | a2aError (msg : String)
deriving DecidableEq

/-- Outcome of the single remote interaction performed by `run`:
an `httpx.TimeoutException`, another `httpx.HTTPError`, any other raised
exception, or a response whose `root.result` is the given projection
(`none` when `response.root`/`response.root.result` is absent). -/
inductive SendOutcome where
  | timeoutExc
  | httpError (msg : String)
  | otherExc (msg : String)
  | response (result : Option TaskResult)

/-- `A2ARemoteAgentTool.run` after message construction: the first component
counts how many times the message is submitted (the source contains exactly
one `send_message` call and no retry loop), the second is the outcome.
`timeoutStr` is the textual rendering of the `timeout` float interpolated
into the timeout message. -/
def runModel (timeoutStr : String) (outcome : SendOutcome) :
    Nat × Except RunError String :=
  match outcome with
  | .timeoutExc =>
    (1, .error (.timeoutError ("Request timeout after " ++ timeoutStr ++ "s")))
  | .httpError m =>
    (1, .error (.communicationError ("Network error: " ++ m)))
  | .otherExc m =>
    (1, .error (.a2aError ("A2A communication error: " ++ m)))
  | .response result =>
    let result_text :=
      match result with
      | some tr => extractResultText tr
      | none => ""
    if result_text = "" then
      (1, .error (.a2aError ("A2A communication error: " ++ noTextMsg)))
    else
      (1, .ok result_text)

/-- Modelled from the spec (amended claim C1): message-parts fallback — the
first message part text when it is non-empty, the empty-result failure
otherwise. -/
def specMessageFallback (tr : TaskResult) : Except RunError String :=
  match messageNavText tr with
  | some m =>
    if m = "" then .error (.a2aError ("A2A communication error: " ++ noTextMsg))
    else .ok m
  | none => .error (.a2aError ("A2A communication error: " ++ noTextMsg))

/-- Modelled from the spec (amended claim C1): extraction precedence — a
non-empty first-artifact first-part text wins; an absent or empty artifact
text falls back to the message parts; with no usable text anywhere the call
fails. -/
def specExtractResult (tr : TaskResult) : Except RunError String :=
  match artifactNavText tr with
  | some a => if a = "" then specMessageFallback tr else .ok a
  | none => specMessageFallback tr

/-! ## Agent executors (src/crewai_question_agent/agent_executor.py and
src/langgraph_latex_agent/agent_executor.py) -/

/-- A2A task states. -/
inductive TaskState where
  | submitted
  | working
  | completed
  | failed
  | canceled
deriving DecidableEq

/-- The task record as created by `a2a.utils.new_task`: fresh ids unless the
incoming message supplies them, initial state `submitted`. -/
structure TaskRec where
  id : String
  contextId : String
  state : TaskState
deriving DecidableEq

/-- Events enqueued on the `EventQueue` by the executors, in program order:
`taskCreated` is `enqueue_event(new_task(...))`, `statusUpdate` is
`TaskUpdater.update_status` (with `final := true` for `TaskUpdater.complete`),
`backendCall` marks the invocation of the generation backend, and
`artifactAdded` is `TaskUpdater.add_artifact` with a single text part under
the given name. -/
inductive Event where
  | taskCreated (task : TaskRec)
  | statusUpdate (taskId contextId : String) (state : TaskState)
      (message : Option String) (final : Bool)
  | backendCall (input : String)
  | artifactAdded (taskId contextId name text : String)
deriving DecidableEq

/-- `true` exactly on a status update that publishes the `failed` state. -/
def Event.isFailedStatus : Event → Bool
  | .statusUpdate _ _ s _ _ => s == .failed
  | _ => false

/-- The request context as seen by `execute`: the user text extracted by
`context.get_user_input()`, the optional current task, and the optional
task/context ids carried by the incoming message. -/
structure RequestContext where
  userInput : String
  currentTask : Option TaskRec
  msgTaskId : Option String
  msgContextId : Option String
deriving DecidableEq

/-- Error kinds raised (wrapped in `ServerError`) by the executors:
`InvalidParamsError` — the source realisation of the spec taxonomy
`InvalidInputError` —, `InternalError`, and `UnsupportedOperationError`. -/
inductive ServerErrorKind where
  | invalidParamsError
  | internalError
  | unsupportedOperationError
deriving DecidableEq

/-- `_validate_request` (identical in both executors): invalid exactly when
`not user_input or not user_input.strip()`. -/
def validate_request_invalid (userInput : String) : Bool :=
  userInput == "" || pyStrip userInput == ""

/-- `a2a.utils.new_task` applied to the incoming message: id and context id
from the message when present, otherwise the fresh `uuid4` strings passed in
as parameters; initial state `submitted`. -/
def newTaskFor (freshTaskId freshContextId : String) (ctx : RequestContext) :
    TaskRec :=
  { id := ctx.msgTaskId.getD freshTaskId,
    contextId := ctx.msgContextId.getD freshContextId,
    state := TaskState.submitted }

/-- `CrewAIQuestionGeneratorExecutor.execute`: validate, create or continue
the task, publish `working` with a progress message, call the backend
(`QuestionGeneratorAgent.generate_questions`, an external LLM call modelled
as the `backend` parameter), then on success add the artifact
`generated_questions` and complete; on backend failure re-raise as
`InternalError` after the events published so far. The returned pair is the
list of enqueued events and the outcome of `execute`. -/
def crewaiExecute (backend : String → Except String String)
    (freshTaskId freshContextId : String) (ctx : RequestContext) :
    List Event × Except ServerErrorKind Unit :=
  if validate_request_invalid ctx.userInput then
    ([], .error .invalidParamsError)
  else
    let query := ctx.userInput
    let (task, created) :=
      match ctx.currentTask with
      | some t => (t, ([] : List Event))
      | none =>
        let t := newTaskFor freshTaskId freshContextId ctx
        (t, [Event.taskCreated t])
    let working :=
      [Event.statusUpdate task.id task.contextId .working
        (some "Generating educational questions...") false]
    let call := [Event.backendCall query]
    match backend query with
    | .error _ => (created ++ working ++ call, .error .internalError)
    | .ok questions =>
      (created ++ working ++ call ++
        [Event.artifactAdded task.id task.contextId "generated_questions" questions,
         Event.statusUpdate task.id task.contextId .completed none true],
       .ok ())

/-- `LangGraphLatexExecutor.execute`: same shape as the CrewAI executor with
two `working` progress updates, the backend `LatexConverterAgent.convert_to_latex`,
and the artifact name `latex_document`. -/
def langgraphExecute (backend : String → Except String String)
    (freshTaskId freshContextId : String) (ctx : RequestContext) :
    List Event × Except ServerErrorKind Unit :=
  if validate_request_invalid ctx.userInput then
    ([], .error .invalidParamsError)
  else
    let questions_text := ctx.userInput
    let (task, created) :=
      match ctx.currentTask with
      | some t => (t, ([] : List Event))
      | none =>
        let t := newTaskFor freshTaskId freshContextId ctx
        (t, [Event.taskCreated t])
    let working :=
      [Event.statusUpdate task.id task.contextId .working
        (some "Parsing questions...") false,
       Event.statusUpdate task.id task.contextId .working
        (some "Converting to LaTeX format...") false]
    let call := [Event.backendCall questions_text]
    match backend questions_text with
    | .error _ => (created ++ working ++ call, .error .internalError)
    | .ok latex_code =>
      (created ++ working ++ call ++
        [Event.artifactAdded task.id task.contextId "latex_document" latex_code,
         Event.statusUpdate task.id task.contextId .completed none true],
       .ok ())

/-- `CrewAIQuestionGeneratorExecutor.cancel`: unconditionally raises
`ServerError(UnsupportedOperationError())` and enqueues nothing. -/
def crewaiCancel (_ctx : RequestContext) :
    List Event × Except ServerErrorKind Unit :=
  ([], .error .unsupportedOperationError)

/-- `LangGraphLatexExecutor.cancel`: unconditionally raises
`ServerError(UnsupportedOperationError())` and enqueues nothing. -/
def langgraphCancel (_ctx : RequestContext) :
    List Event × Except ServerErrorKind Unit :=
  ([], .error .unsupportedOperationError)

/-! ## Orchestrator (src/client/client_agent.py, run_workflow) -/

/-- A call to one of the two remote stages, with the input it received. -/
inductive StageCall where
  | stage1 (input : String)
  | stage2 (input : String)
deriving DecidableEq

/-- `run_workflow`: call stage 1 (the CrewAI question generator tool) with
the topic; on failure re-raise; otherwise call stage 2 (the LangGraph LaTeX
tool) with stage 1 output; on failure re-raise; otherwise return stage 2
output.  The first component records the stage invocations in order. -/
def run_workflow (stage1 stage2 : String → Except String String)
    (topic : String) : List StageCall × Except String String :=
  match stage1 topic with
  | .error e => ([.stage1 topic], .error e)
  | .ok questions =>
    match stage2 questions with
    | .error e => ([.stage1 topic, .stage2 questions], .error e)
    | .ok latex_code => ([.stage1 topic, .stage2 questions], .ok latex_code)

/-! ## LangGraph LaTeX pipeline (src/langgraph_latex_agent/agent.py) -/

/-- Node 1 `parse_questions`: strip the input, split on newlines, strip each
line and keep the non-blank ones. -/
def parse_questions (questions : String) : List String :=
  ((pySplit (pyStrip questions) "\n").map pyStrip).filter (fun line => !(line == ""))

/-- The Gemini prompt built inside node 2 from the parsed question list. -/
def latexPrompt (parsed : List String) : String :=
  "Convert the following questions into a professional LaTeX document.\n\nQuestions:\n"
  ++ String.intercalate "\n" parsed ++
  "\n\nRequirements:\n1. Use \\documentclass\x7barticle\x7d\n2. Include necessary packages:\n   - \\usepackage\x7benumerate\x7d for numbered lists\n   - \\usepackage\x7bamsmath\x7d for any math formatting\n   - \\usepackage[margin=1in]\x7bgeometry\x7d for margins\n3. Use \\begin\x7benumerate\x7d environment for the questions\n4. Each question should be a \\item\n5. Make the document compile-ready (complete with \\begin\x7bdocument\x7d and \\end\x7bdocument\x7d)\n6. Add a title like \"Educational Questions\"\n7. Use proper LaTeX formatting and escaping\n\nReturn ONLY the LaTeX code, no explanations or markdown code blocks."

/-- The markdown-fence cleanup of node 2: cut out the content of a
` ```latex ` or plain ` ``` ` block when present, then strip it. -/
def cleanLatex (latex_code : String) : String :=
  if pyContains latex_code "```latex" then
    pyStrip ((pySplit ((pySplit latex_code "```latex").getD 1 "") "```").headD "")
  else if pyContains latex_code "```" then
    pyStrip ((pySplit ((pySplit latex_code "```").getD 1 "") "```").headD "")
  else latex_code

/-- Node 2 `convert_to_latex`: prompt the model (`gen` abstracts the Gemini
`generate_content` call returning `response.text`) and clean the reply. -/
def convert_to_latex (gen : String → String) (parsed : List String) : String :=
  cleanLatex (gen (latexPrompt parsed))

/-- Node 3 `format_output`: prepend the fixed metadata comment header, with
the question count and the timestamp (`import_datetime_now()` in the source,
passed here as a parameter). -/
def format_output (latex : String) (count : Nat) (timestamp : String) : String :=
  "% Generated by LangGraph A2A Agent\n% Questions Count: " ++ toString count ++
  "\n% Generator: Gemini 2.0 Flash\n% Timestamp: " ++ timestamp ++ "\n\n" ++ latex

/-- `LatexConverterAgent.convert_to_latex`: run the compiled state graph
`parse_questions → convert_to_latex → format_output` on the questions text
and return the final `latex_code`. -/
def latexAgentConvert (gen : String → String) (timestamp : String)
    (questions : String) : String :=
  let parsed := parse_questions questions
  let count := parsed.length
  let latex := convert_to_latex gen parsed
  format_output latex count timestamp

/-! ## Concrete data for witnesses and counterexamples -/

/-- A task result whose first artifact part carries the empty string and
whose message part carries usable text. -/
def trFallback : TaskResult :=
  { id := "task-1",
    artifacts := some [{ parts := [{ text := some "" }] }],
    message := some { parts := [{ text := some "hello" }] } }

/-- A request context carrying a plain topic and no prior task. -/
def topicCtx : RequestContext :=
  { userInput := "Machine Learning",
    currentTask := none,
    msgTaskId := none,
    msgContextId := none }

/-- The five-line numbered question list of the end-to-end scenario. -/
def mlQuestions : String :=
  "1. What is machine learning?\n2. How do neural networks learn?\n3. What is supervised learning?\n4. Explain gradient descent.\n5. What are activation functions?"

/-- A compliant backend reply for the scenario: a complete LaTeX document
holding the five questions as items. -/
def mlLatexBody : String :=
  "\\documentclass\x7barticle\x7d\n\\usepackage\x7benumerate\x7d\n\\usepackage\x7bamsmath\x7d\n\\begin\x7bdocument\x7d\n\\begin\x7benumerate\x7d\n\\item What is machine learning?\n\\item How do neural networks learn?\n\\item What is supervised learning?\n\\item Explain gradient descent.\n\\item What are activation functions?\n\\end\x7benumerate\x7d\n\\end\x7bdocument\x7d"

/-- A fixed timestamp standing in for `import_datetime_now()`. -/
def mlTimestamp : String := "2026-01-01 00:00:00"

/-- The stage 2 output of the scenario. -/
def mlResult : String :=
  latexAgentConvert (fun _ => mlLatexBody) mlTimestamp mlQuestions

/-! ## Helper lemmas -/

/-- Dropping leading whitespace from an all-whitespace list empties it. -/
theorem pyStripList_eq_nil {l : List Char} (h : l.all isPySpace = true) :
    pyStripList l = [] := by
  have h1 : l.dropWhile isPySpace = [] := by
    induction l with
    | nil => rfl
    | cons c cs ih =>
      simp only [List.all_cons, Bool.and_eq_true] at h
      simp [List.dropWhile_cons, h.1, ih h.2]
  simp [pyStripList, h1]

/-- Python strip of an all-whitespace string is the empty string. -/
theorem pyStrip_blank {s : String} (h : s.data.all isPySpace = true) :
    pyStrip s = "" := by
  show String.mk (pyStripList s.data) = ""
  rw [pyStripList_eq_nil h]

/-- Validation flags every empty-or-whitespace-only input as invalid. -/
theorem validate_blank {s : String} (h : s.data.all isPySpace = true) :
    validate_request_invalid s = true := by
  simp [validate_request_invalid, pyStrip_blank h]

/-- The source extraction agrees with the spec-side precedence
`specExtractResult` once the final empty-check failure is taken into
account. -/
theorem specExtract_eq (tr : TaskResult) :
    specExtractResult tr =
      if extractResultText tr = "" then
        .error (.a2aError ("A2A communication error: " ++ noTextMsg))
      else .ok (extractResultText tr) := by
  obtain ⟨tid, arts, msg⟩ := tr
  rcases arts with _ | (_ | ⟨⟨_ | ⟨⟨_ | atxt⟩, aps⟩⟩, as⟩) <;>
    rcases msg with _ | ⟨_ | ⟨⟨_ | mtxt⟩, mps⟩⟩ <;>
    simp only [specExtractResult, specMessageFallback, artifactNavText,
      messageNavText, extractResultText] <;>
    split_ifs <;> simp_all

/-! ## Claim theorems -/

/-- Claim C2 (confirmed): for every incoming message whose extracted user
text is empty or whitespace-only, `execute` raises the invalid-input error
(`InvalidParamsError`, the source realisation of the spec
`InvalidInputError`) and enqueues nothing — validation precedes task
creation, so the rejected request produces no task, in either executor. -/
theorem execute_blank_input_rejected
    (backend1 backend2 : String → Except String String)
    (freshTaskId freshContextId : String) (ctx : RequestContext)
    (hblank : ctx.userInput.data.all isPySpace = true) :
    crewaiExecute backend1 freshTaskId freshContextId ctx
      = ([], .error .invalidParamsError) ∧
    langgraphExecute backend2 freshTaskId freshContextId ctx
      = ([], .error .invalidParamsError) := by
  have hval := validate_blank hblank
  constructor <;> simp [crewaiExecute, langgraphExecute, hval]

/-- Witness for C2 at the whitespace-only input `"   "`. -/
theorem execute_blank_input_rejected_witness :
    crewaiExecute (fun _ => .ok "QS") "t1" "c1"
        { userInput := "   ", currentTask := none,
          msgTaskId := none, msgContextId := none }
      = ([], .error .invalidParamsError) ∧
    langgraphExecute (fun _ => .ok "DOC") "t1" "c1"
        { userInput := "   ", currentTask := none,
          msgTaskId := none, msgContextId := none }
      = ([], .error .invalidParamsError) :=
  execute_blank_input_rejected _ _ "t1" "c1" _ (by decide)

/-- Claim C3 (confirmed): on a fresh task with valid input and a successful
backend, the events of `execute` are published in program order — the task
creation event (state `submitted`) first, then the `working` transition(s)
each with a progress message, then the backend invocation, then exactly one
artifact (the result as a single text part under the stage-specific name),
then the `completed` transition; for both executors. -/
theorem execute_event_order
    (backend1 backend2 : String → Except String String)
    (fid fcid : String) (ctx : RequestContext) (questions doc : String)
    (hTask : ctx.currentTask = none)
    (hValid : validate_request_invalid ctx.userInput = false)
    (h1 : backend1 ctx.userInput = .ok questions)
    (h2 : backend2 ctx.userInput = .ok doc) :
    (newTaskFor fid fcid ctx).state = .submitted ∧
    crewaiExecute backend1 fid fcid ctx =
      ([Event.taskCreated (newTaskFor fid fcid ctx),
        Event.statusUpdate (newTaskFor fid fcid ctx).id
          (newTaskFor fid fcid ctx).contextId .working
          (some "Generating educational questions...") false,
        Event.backendCall ctx.userInput,
        Event.artifactAdded (newTaskFor fid fcid ctx).id
          (newTaskFor fid fcid ctx).contextId "generated_questions" questions,
        Event.statusUpdate (newTaskFor fid fcid ctx).id
          (newTaskFor fid fcid ctx).contextId .completed none true],
       .ok ()) ∧
    langgraphExecute backend2 fid fcid ctx =
      ([Event.taskCreated (newTaskFor fid fcid ctx),
        Event.statusUpdate (newTaskFor fid fcid ctx).id
          (newTaskFor fid fcid ctx).contextId .working
          (some "Parsing questions...") false,
        Event.statusUpdate (newTaskFor fid fcid ctx).id
          (newTaskFor fid fcid ctx).contextId .working
          (some "Converting to LaTeX format...") false,
        Event.backendCall ctx.userInput,
        Event.artifactAdded (newTaskFor fid fcid ctx).id
          (newTaskFor fid fcid ctx).contextId "latex_document" doc,
        Event.statusUpdate (newTaskFor fid fcid ctx).id
          (newTaskFor fid fcid ctx).contextId .completed none true],
       .ok ()) := by
  refine ⟨rfl, ?_, ?_⟩ <;>
    simp [crewaiExecute, langgraphExecute, hTask, hValid, h1, h2]

/-- Witness for C3 at the topic `"Machine Learning"`. -/
theorem execute_event_order_witness :
    (newTaskFor "t1" "c1" topicCtx).state = .submitted ∧
    crewaiExecute (fun _ => .ok "QS") "t1" "c1" topicCtx =
      ([Event.taskCreated (newTaskFor "t1" "c1" topicCtx),
        Event.statusUpdate (newTaskFor "t1" "c1" topicCtx).id
          (newTaskFor "t1" "c1" topicCtx).contextId .working
          (some "Generating educational questions...") false,
        Event.backendCall topicCtx.userInput,
        Event.artifactAdded (newTaskFor "t1" "c1" topicCtx).id
          (newTaskFor "t1" "c1" topicCtx).contextId "generated_questions" "QS",
        Event.statusUpdate (newTaskFor "t1" "c1" topicCtx).id
          (newTaskFor "t1" "c1" topicCtx).contextId .completed none true],
       .ok ()) ∧
    langgraphExecute (fun _ => .ok "DOC") "t1" "c1" topicCtx =
      ([Event.taskCreated (newTaskFor "t1" "c1" topicCtx),
        Event.statusUpdate (newTaskFor "t1" "c1" topicCtx).id
          (newTaskFor "t1" "c1" topicCtx).contextId .working
          (some "Parsing questions...") false,
        Event.statusUpdate (newTaskFor "t1" "c1" topicCtx).id
          (newTaskFor "t1" "c1" topicCtx).contextId .working
          (some "Converting to LaTeX format...") false,
        Event.backendCall topicCtx.userInput,
        Event.artifactAdded (newTaskFor "t1" "c1" topicCtx).id
          (newTaskFor "t1" "c1" topicCtx).contextId "latex_document" "DOC",
        Event.statusUpdate (newTaskFor "t1" "c1" topicCtx).id
          (newTaskFor "t1" "c1" topicCtx).contextId .completed none true],
       .ok ()) :=
  execute_event_order _ _ "t1" "c1" topicCtx "QS" "DOC" rfl (by decide) rfl rfl

/-- Claim C4 (amended, proved): on an unhandled backend error `execute`
stops after the events already published (task creation, `working`
transition(s), backend invocation), wraps the failure as `InternalError` and
propagates it out of `execute` — never swallowed, never converted into an
empty result — but it publishes no `failed` state transition itself. -/
theorem execute_backend_failure_propagates
    (backend1 backend2 : String → Except String String)
    (fid fcid : String) (ctx : RequestContext) (e1 e2 : String)
    (hTask : ctx.currentTask = none)
    (hValid : validate_request_invalid ctx.userInput = false)
    (h1 : backend1 ctx.userInput = .error e1)
    (h2 : backend2 ctx.userInput = .error e2) :
    crewaiExecute backend1 fid fcid ctx =
      ([Event.taskCreated (newTaskFor fid fcid ctx),
        Event.statusUpdate (newTaskFor fid fcid ctx).id
          (newTaskFor fid fcid ctx).contextId .working
          (some "Generating educational questions...") false,
        Event.backendCall ctx.userInput],
       .error .internalError) ∧
    langgraphExecute backend2 fid fcid ctx =
      ([Event.taskCreated (newTaskFor fid fcid ctx),
        Event.statusUpdate (newTaskFor fid fcid ctx).id
          (newTaskFor fid fcid ctx).contextId .working
          (some "Parsing questions...") false,
        Event.statusUpdate (newTaskFor fid fcid ctx).id
          (newTaskFor fid fcid ctx).contextId .working
          (some "Converting to LaTeX format...") false,
        Event.backendCall ctx.userInput],
       .error .internalError) ∧
    (crewaiExecute backend1 fid fcid ctx).1.all
      (fun ev => !(Event.isFailedStatus ev)) = true ∧
    (langgraphExecute backend2 fid fcid ctx).1.all
      (fun ev => !(Event.isFailedStatus ev)) = true := by
  have hc : crewaiExecute backend1 fid fcid ctx =
      ([Event.taskCreated (newTaskFor fid fcid ctx),
        Event.statusUpdate (newTaskFor fid fcid ctx).id
          (newTaskFor fid fcid ctx).contextId .working
          (some "Generating educational questions...") false,
        Event.backendCall ctx.userInput],
       .error .internalError) := by
    simp [crewaiExecute, hTask, hValid, h1]
  have hl : langgraphExecute backend2 fid fcid ctx =
      ([Event.taskCreated (newTaskFor fid fcid ctx),
        Event.statusUpdate (newTaskFor fid fcid ctx).id
          (newTaskFor fid fcid ctx).contextId .working
          (some "Parsing questions...") false,
        Event.statusUpdate (newTaskFor fid fcid ctx).id
          (newTaskFor fid fcid ctx).contextId .working
          (some "Converting to LaTeX format...") false,
        Event.backendCall ctx.userInput],
       .error .internalError) := by
    simp [langgraphExecute, hTask, hValid, h2]
  refine ⟨hc, hl, ?_, ?_⟩ <;>
    simp [hc, hl, Event.isFailedStatus]

/-- Witness for C4 (amended) at a failing backend. -/
theorem execute_backend_failure_propagates_witness :
    crewaiExecute (fun _ => .error "backend failure") "t1" "c1" topicCtx =
      ([Event.taskCreated (newTaskFor "t1" "c1" topicCtx),
        Event.statusUpdate (newTaskFor "t1" "c1" topicCtx).id
          (newTaskFor "t1" "c1" topicCtx).contextId .working
          (some "Generating educational questions...") false,
        Event.backendCall topicCtx.userInput],
       .error .internalError) ∧
    langgraphExecute (fun _ => .error "backend failure") "t1" "c1" topicCtx =
      ([Event.taskCreated (newTaskFor "t1" "c1" topicCtx),
        Event.statusUpdate (newTaskFor "t1" "c1" topicCtx).id
          (newTaskFor "t1" "c1" topicCtx).contextId .working
          (some "Parsing questions...") false,
        Event.statusUpdate (newTaskFor "t1" "c1" topicCtx).id
          (newTaskFor "t1" "c1" topicCtx).contextId .working
          (some "Converting to LaTeX format...") false,
        Event.backendCall topicCtx.userInput],
       .error .internalError) ∧
    (crewaiExecute (fun _ => .error "backend failure") "t1" "c1" topicCtx).1.all
      (fun ev => !(Event.isFailedStatus ev)) = true ∧
    (langgraphExecute (fun _ => .error "backend failure") "t1" "c1" topicCtx).1.all
      (fun ev => !(Event.isFailedStatus ev)) = true :=
  execute_backend_failure_propagates _ _ "t1" "c1" topicCtx
    "backend failure" "backend failure" rfl (by decide) rfl rfl

/-- Claim C4 (counterexample to the claim as stated): with a failing backend
the error is wrapped as `InternalError` and propagates, but no event of the
published trace is a `failed` state transition — the task is never advanced
to `failed` by `execute`. -/
theorem execute_backend_failure_counterexample :
    (crewaiExecute (fun _ => .error "backend failure") "t1" "c1" topicCtx).2
      = .error .internalError ∧
    (crewaiExecute (fun _ => .error "backend failure") "t1" "c1" topicCtx).1.all
      (fun ev => !(Event.isFailedStatus ev)) = true ∧
    (langgraphExecute (fun _ => .error "backend failure") "t1" "c1" topicCtx).2
      = .error .internalError ∧
    (langgraphExecute (fun _ => .error "backend failure") "t1" "c1" topicCtx).1.all
      (fun ev => !(Event.isFailedStatus ev)) = true :=
  ⟨rfl, by decide, rfl, by decide⟩

/-- Claim C5 (confirmed): `run_workflow` calls stage 1 with the topic; if
stage 1 fails, its error is re-raised and stage 2 receives zero calls; if
stage 1 succeeds, stage 2 is called exactly once with stage 1's full output
and, on its failure, that error is re-raised; on success the pipeline
returns stage 2's output.  The recorded call trace shows each stage invoked
at most once (no retry). -/
theorem run_workflow_sequencing
    (stage1 stage2 : String → Except String String) (topic : String) :
    (∀ e, stage1 topic = .error e →
      run_workflow stage1 stage2 topic = ([.stage1 topic], .error e)) ∧
    (∀ q e, stage1 topic = .ok q → stage2 q = .error e →
      run_workflow stage1 stage2 topic
        = ([.stage1 topic, .stage2 q], .error e)) ∧
    (∀ q d, stage1 topic = .ok q → stage2 q = .ok d →
      run_workflow stage1 stage2 topic
        = ([.stage1 topic, .stage2 q], .ok d)) := by
  refine ⟨?_, ?_, ?_⟩
  · intro e h
    simp [run_workflow, h]
  · intro q e h1 h2
    simp [run_workflow, h1, h2]
  · intro q d h1 h2
    simp [run_workflow, h1, h2]

/-- Witness for C5: an unreachable stage 1 aborts with no stage 2 call; a
successful run calls the stages in order and returns stage 2's output. -/
theorem run_workflow_sequencing_witness :
    run_workflow (fun _ => .error "unreachable") (fun _ => .ok "DOC")
        "Machine Learning"
      = ([.stage1 "Machine Learning"], .error "unreachable") ∧
    run_workflow (fun _ => .ok "QS") (fun _ => .ok "DOC") "Machine Learning"
      = ([.stage1 "Machine Learning", .stage2 "QS"], .ok "DOC") :=
  ⟨(run_workflow_sequencing _ _ _).1 "unreachable" rfl,
   (run_workflow_sequencing _ _ _).2.2 "QS" "DOC" rfl rfl⟩

/-- Claim C6 (confirmed): a cancellation request, whatever the context —
any current task in any state, or none — raises
`UnsupportedOperationError` and enqueues no event, for both executors. -/
theorem cancel_always_unsupported (ctx : RequestContext) :
    crewaiCancel ctx = ([], .error .unsupportedOperationError) ∧
    langgraphCancel ctx = ([], .error .unsupportedOperationError) :=
  ⟨rfl, rfl⟩

/-- Claim C7 (confirmed): a timeout fails with the timeout error carrying
the elapsed bound, a transport failure fails with the communication error
wrapping the underlying cause, and in every case the message is submitted
exactly once — the client never retries. -/
theorem run_timeout_and_transport_errors (timeoutStr : String) :
    runModel timeoutStr .timeoutExc =
      (1, .error (.timeoutError
        ("Request timeout after " ++ timeoutStr ++ "s"))) ∧
    (∀ cause, runModel timeoutStr (.httpError cause) =
      (1, .error (.communicationError ("Network error: " ++ cause)))) ∧
    (∀ outcome, (runModel timeoutStr outcome).1 = 1) := by
  refine ⟨rfl, fun _ => rfl, fun outcome => ?_⟩
  cases outcome <;>
    first
      | rfl
      | (simp only [runModel]
         split <;> rfl)

/-- Claim C1 (counterexample to the claim as stated): `trFallback` has a
non-empty artifact list whose first artifact first part carries the text
`""`, yet `run` does not return that text — it falls through to the message
parts and returns `"hello"`. -/
theorem run_artifact_empty_text_counterexample :
    trFallback.artifacts = some [{ parts := [{ text := some "" }] }] ∧
    artifactNavText trFallback = some "" ∧
    runModel "120.0" (.response (some trFallback)) = (1, .ok "hello") ∧
    ("hello" : String) ≠ "" :=
  ⟨rfl, rfl, rfl, by decide⟩

/-- Claim C1 (amended, proved): `run` extracts the result with the
precedence of `specExtractResult` — a *non-empty* first-artifact first-part
text is returned; an absent or empty one falls back to the message parts,
whose first text is returned when non-empty; otherwise `run` fails with the
empty-result error (the `ValueError` wrapped into the generic
communication-error message). A missing task result fails the same way. -/
theorem run_extraction_precedence (timeoutStr : String) :
    (∀ tr : TaskResult,
      runModel timeoutStr (.response (some tr)) = (1, specExtractResult tr)) ∧
    runModel timeoutStr (.response none) =
      (1, .error (.a2aError ("A2A communication error: " ++ noTextMsg))) := by
  refine ⟨fun tr => ?_, rfl⟩
  simp only [runModel]
  rw [specExtract_eq]
  by_cases h : extractResultText tr = "" <;> simp [h]

/-- Claim C8 (counterexample to the claim as stated): a *provided* empty
`task_id`/`context_id` (Python passes the truthiness check `if task_id:`
only for non-empty strings) is dropped from the payload. -/
theorem payload_empty_task_id_counterexample :
    (some "" : Option String) ≠ none ∧
    (buildMessagePayload "hello" "mid1" (some "") (some "")).taskId = none ∧
    (buildMessagePayload "hello" "mid1" (some "") (some "")).contextId = none :=
  ⟨by decide, rfl, rfl⟩

/-- Claim C8 (amended, proved): the submitted payload has role `user`,
exactly one text part carrying `input_text` unchanged, the generated
`message_id`, and it contains the `task_id` (resp. `context_id`) field iff a
*non-empty* `task_id` (resp. `context_id`) was provided, in which case the
field holds exactly the provided value. -/
theorem payload_construction (input_text message_id : String)
    (task_id context_id : Option String) :
    (buildMessagePayload input_text message_id task_id context_id).role
      = "user" ∧
    (buildMessagePayload input_text message_id task_id context_id).parts
      = [("text", input_text)] ∧
    (buildMessagePayload input_text message_id task_id context_id).messageId
      = message_id ∧
    (task_id = none ∨ task_id = some "" →
      (buildMessagePayload input_text message_id task_id context_id).taskId
        = none) ∧
    (∀ s, task_id = some s → s ≠ "" →
      (buildMessagePayload input_text message_id task_id context_id).taskId
        = some s) ∧
    (context_id = none ∨ context_id = some "" →
      (buildMessagePayload input_text message_id task_id context_id).contextId
        = none) ∧
    (∀ s, context_id = some s → s ≠ "" →
      (buildMessagePayload input_text message_id task_id context_id).contextId
        = some s) := by
  refine ⟨rfl, rfl, rfl, ?_, ?_, ?_, ?_⟩
  · rintro (rfl | rfl) <;> simp [buildMessagePayload, pyTruthy]
  · rintro s rfl hs
    simp [buildMessagePayload, pyTruthy, hs]
  · rintro (rfl | rfl) <;> simp [buildMessagePayload, pyTruthy]
  · rintro s rfl hs
    simp [buildMessagePayload, pyTruthy, hs]

/-- Witness for C8 (amended) at a provided non-empty task id and an absent
context id. -/
theorem payload_construction_witness :
    (buildMessagePayload "Machine Learning" "mid1" (some "T1") none).taskId
      = some "T1" ∧
    (buildMessagePayload "Machine Learning" "mid1" (some "T1") none).contextId
      = none ∧
    (buildMessagePayload "Machine Learning" "mid1" (some "T1") none).role
      = "user" ∧
    (buildMessagePayload "Machine Learning" "mid1" (some "T1") none).parts
      = [("text", "Machine Learning")] ∧
    (buildMessagePayload "Machine Learning" "mid1" (some "T1") none).messageId
      = "mid1" :=
  ⟨(payload_construction "Machine Learning" "mid1" (some "T1") none).2.2.2.2.1
      "T1" rfl (by decide),
   (payload_construction "Machine Learning" "mid1" (some "T1") none).2.2.2.2.2.1
      (Or.inl rfl),
   (payload_construction "Machine Learning" "mid1" (some "T1") none).1,
   (payload_construction "Machine Learning" "mid1" (some "T1") none).2.1,
   (payload_construction "Machine Learning" "mid1" (some "T1") none).2.2.1⟩

/-- Claim C9 (counterexample to the claim as stated): even when the backend
document begins with the structural opening marker, the pipeline output does
not — `format_output` prepends the metadata comment header, so the output
begins with `%`, not with the marker. -/
theorem pipeline_header_counterexample :
    strStartsWith "\\documentclass" mlLatexBody = true ∧
    strStartsWith "\\documentclass" mlResult = false ∧
    strStartsWith "\\begin\x7bdocument\x7d" mlResult = false ∧
    strStartsWith "% Generated by LangGraph A2A Agent" mlResult = true ∧
    strEndsWith "\\end\x7bdocument\x7d" mlResult = true :=
  ⟨by decide, by decide, by decide, by decide, by decide⟩

/-- Claim C9 (amended, proved): on topic `"Machine Learning"` with stage 1
returning the 5-line numbered list `mlQuestions`, stage 2 receives those
exact 5 lines; its result is the fixed metadata comment header — whose count
line records the 5 non-blank input lines — prepended to the backend's
cleaned LaTeX output, so the result begins with the metadata header (the
document-opening marker following right after it), ends with the structural
document-closing marker, and contains the original 5 questions as list
items. -/
theorem pipeline_machine_learning_scenario :
    run_workflow (fun _ => .ok mlQuestions)
        (fun s => .ok (latexAgentConvert (fun _ => mlLatexBody) mlTimestamp s))
        "Machine Learning"
      = ([.stage1 "Machine Learning", .stage2 mlQuestions], .ok mlResult) ∧
    (parse_questions mlQuestions).length = 5 ∧
    mlResult =
      "% Generated by LangGraph A2A Agent\n% Questions Count: 5\n% Generator: Gemini 2.0 Flash\n% Timestamp: "
        ++ mlTimestamp ++ "\n\n" ++ mlLatexBody ∧
    strStartsWith "% Generated by LangGraph A2A Agent" mlResult = true ∧
    strEndsWith "\\end\x7bdocument\x7d" mlResult = true ∧
    pyContains mlResult "\\begin\x7bdocument\x7d" = true ∧
    pyContains mlResult "\\item What is machine learning?" = true ∧
    pyContains mlResult "\\item How do neural networks learn?" = true ∧
    pyContains mlResult "\\item What is supervised learning?" = true ∧
    pyContains mlResult "\\item Explain gradient descent." = true ∧
    pyContains mlResult "\\item What are activation functions?" = true :=
  ⟨rfl, by decide, by decide, by decide, by decide, by decide, by decide,
   by decide, by decide, by decide, by decide⟩

/-- Claim C10 (confirmed): whenever `run` returns normally the returned
string is non-empty, and an artifact whose first part text is the empty
string is treated exactly like a missing artifact — extraction proceeds as
if `artifacts` were absent, falling through to the message parts. -/
theorem run_nonempty_result :
    (∀ (timeoutStr : String) (outcome : SendOutcome) (n : Nat) (r : String),
      runModel timeoutStr outcome = (n, .ok r) → r ≠ "") ∧
    (∀ tr : TaskResult, artifactNavText tr = some "" →
      extractResultText tr
        = extractResultText { tr with artifacts := none }) := by
  constructor
  · intro t outcome n r h
    cases outcome with
    | timeoutExc => simp [runModel] at h
    | httpError m => simp [runModel] at h
    | otherExc m => simp [runModel] at h
    | response result =>
      simp only [runModel] at h
      split at h
      · simp at h
      · rename_i hne
        simp only [Prod.mk.injEq, Except.ok.injEq] at h
        obtain ⟨-, h2⟩ := h
        subst h2
        exact hne
  · intro tr h
    obtain ⟨tid, arts, msg⟩ := tr
    rcases arts with _ | (_ | ⟨⟨_ | ⟨⟨_ | atxt⟩, aps⟩⟩, as⟩) <;>
      simp only [artifactNavText, Option.some.injEq, reduceCtorEq] at h
    subst h
    rcases msg with _ | ⟨_ | ⟨⟨_ | mtxt⟩, mps⟩⟩ <;>
      simp [extractResultText]

/-- Witness for C10: the non-emptiness conclusion at a concrete successful
run, and the fallthrough equation at `trFallback`. -/
theorem run_nonempty_result_witness :
    ("hello" : String) ≠ "" ∧
    extractResultText trFallback
      = extractResultText { trFallback with artifacts := none } :=
  ⟨run_nonempty_result.1 "120.0" (.response (some trFallback)) 1 "hello" rfl,
   run_nonempty_result.2 trFallback rfl⟩
